import Mathlib

/-!
A verification development for the auto-m4b book-conversion engine.

The Python sources are shallowly embedded: pure decision functions from
`src/lib/retry.py`, `src/lib/run.py`, `src/lib/failed_books.py` and
`src/api/routes/status.py` become Lean functions over explicit inputs.
Regular-expression search (Python `re.search`) is embedded with a
Brzozowski-derivative matcher over a first-order regex syntax that covers
exactly the constructs the source's patterns use.  Wall-clock time and
filesystem observations are passed as explicit arguments.
-/

namespace AutoM4b

/-! ## Regex engine (embedding of `re.search` for the source's patterns)

Python's `re.search(pattern, s)` succeeds iff some substring of `s` matches
the pattern.  The source's patterns use only: literal characters, `\s`
(whitespace class), `\d`, `.` (any char except newline), concatenation,
alternation, `?`, `*`, `+`.  `\s` is modelled as the ASCII whitespace
characters Python matches (sufficient for the strings the program builds). -/

/-- A single-character matcher: an exact character, the `\s` class, the
`\d` class, or `.` (any character except a newline). -/
inductive RChar where
  | exact : Char → RChar
  | wsp : RChar
  | digit : RChar
  | dotc : RChar
deriving Repr, DecidableEq

def RChar.matchesChar : RChar → Char → Bool
  | .exact a, c => a = c
  | .wsp, c =>
      c = ' ' || c = '\t' || c = '\n' || c = '\r' || c = '\x0b' || c = '\x0c'
  | .digit, c => c.isDigit
  | .dotc, c => c != '\n'

/-- Regular expressions: failure, the empty string, a single character
matcher, concatenation, alternation, and Kleene star. -/
inductive Regex where
  | fail : Regex
  | eps : Regex
  | lit : RChar → Regex
  | cat : Regex → Regex → Regex
  | alt : Regex → Regex → Regex
  | star : Regex → Regex
deriving Repr, DecidableEq

/-- Smart concatenation (propagates failure, drops the empty string). -/
def Regex.scat : Regex → Regex → Regex
  | .fail, _ => .fail
  | .eps, b => b
  | a, b =>
    match b with
    | .fail => .fail
    | .eps => a
    | b => .cat a b

/-- Smart alternation (drops failing branches). -/
def Regex.salt : Regex → Regex → Regex
  | .fail, b => b
  | a, b =>
    match b with
    | .fail => a
    | b => .alt a b

/-- Does the regex accept the empty string? -/
def Regex.nullable : Regex → Bool
  | .fail => false
  | .eps => true
  | .lit _ => false
  | .cat a b => a.nullable && b.nullable
  | .alt a b => a.nullable || b.nullable
  | .star _ => true

/-- Brzozowski derivative with respect to one character. -/
def Regex.deriv : Regex → Char → Regex
  | .fail, _ => .fail
  | .eps, _ => .fail
  | .lit m, c => if m.matchesChar c then .eps else .fail
  | .cat a b, c =>
      if a.nullable then Regex.salt (Regex.scat (a.deriv c) b) (b.deriv c)
      else Regex.scat (a.deriv c) b
  | .alt a b, c => Regex.salt (a.deriv c) (b.deriv c)
  | .star a, c => Regex.scat (a.deriv c) (.star a)

/-- Does some prefix of `cs` match `r`?  (Early exit on a failed state.) -/
def Regex.matchesSomePre : Regex → List Char → Bool
  | r, cs =>
    r.nullable ||
      match cs with
      | [] => false
      | c :: rest =>
        match r.deriv c with
        | .fail => false
        | d => d.matchesSomePre rest

/-- Embedding of `re.search r s ≠ None`: some substring of `cs` matches. -/
def Regex.searchList : Regex → List Char → Bool
  | r, cs =>
    r.matchesSomePre cs ||
      match cs with
      | [] => false
      | _ :: rest => r.searchList rest

/-- `re.search(pattern, s)` as a Bool over a Lean `String`. -/
def research (r : Regex) (s : String) : Bool :=
  r.searchList s.data

/-- Python's `error_message.lower()`, at the character-list level
(ASCII case folding; the program's own messages are ASCII). -/
def pyLower (s : String) : List Char :=
  s.data.map Char.toLower

/-! ### Pattern-building helpers (the regex literals of `retry.py`) -/

/-- A literal string of exact characters. -/
def rstr (s : String) : Regex :=
  s.data.foldr (fun c r => Regex.cat (Regex.lit (.exact c)) r) Regex.eps

/-- `\s+` -/
def ws1 : Regex := Regex.cat (Regex.lit .wsp) (Regex.star (Regex.lit .wsp))

/-- `\s*` -/
def wsStar : Regex := Regex.star (Regex.lit .wsp)

/-- `.*` -/
def dotStar : Regex := Regex.star (Regex.lit .dotc)

/-- `r?` -/
def ropt (r : Regex) : Regex := Regex.alt r Regex.eps

/-- Concatenation of a list of regexes. -/
def rcat (l : List Regex) : Regex := l.foldr Regex.cat Regex.eps

/-- `(w1|w2|...)` over literal words. -/
def wordAlt (ws : List String) : Regex :=
  ws.foldr (fun w r => Regex.alt (rstr w) r) Regex.fail

/-- Literal words separated by `\s+`. -/
def wsSeq : List String → Regex
  | [] => Regex.eps
  | [w] => rstr w
  | w :: rest => Regex.cat (rstr w) (Regex.cat ws1 (wsSeq rest))

/-! ## `src/lib/retry.py` -/

/-- `ErrorType = Literal["transient", "permanent"]` -/
inductive ErrorType where
  | transient : ErrorType
  | permanent : ErrorType
deriving Repr, DecidableEq

/-- `TRANSIENT_ERROR_PATTERNS` from `retry.py`, in source order. -/
def TRANSIENT_ERROR_PATTERNS : List Regex :=
  [ Regex.cat (rstr "connection") (Regex.cat ws1
      (Regex.alt (rcat [rstr "time", ropt (rstr "d"), wsStar, rstr "out"])
        (Regex.alt (rstr "reset") (Regex.alt (rstr "refused") (rstr "aborted"))))),
    wsSeq ["network", "is", "unreachable"],
    wsSeq ["temporary", "failure"],
    wsSeq ["no", "route", "to", "host"],
    wsSeq ["name", "or", "service", "not", "known"],
    wsSeq ["out", "of", "memory"],
    wsSeq ["cannot", "allocate", "memory"],
    wsSeq ["no", "space", "left", "on", "device"],
    wsSeq ["disk", "full"],
    wsSeq ["too", "many", "open", "files"],
    wsSeq ["i/o", "error"],
    wsSeq ["input/output", "error"],
    wsSeq ["read", "error"],
    wsSeq ["write", "error"],
    wsSeq ["resource", "temporarily", "unavailable"],
    wsSeq ["broken", "pipe"],
    wsSeq ["device", "or", "resource", "busy"],
    wsSeq ["docker", "daemon", "is", "not", "running"],
    wsSeq ["cannot", "connect", "to", "docker"],
    wsSeq ["could", "not", "create", "temp"],
    rcat [rstr "ffmpeg", dotStar, rstr "hung"],
    wsSeq ["conversion", "timeout"] ]

/-- `PERMANENT_ERROR_PATTERNS` from `retry.py`, in source order. -/
def PERMANENT_ERROR_PATTERNS : List Regex :=
  [ Regex.cat (rstr "invalid") (Regex.cat ws1
      (wordAlt ["format", "file", "data", "header"])),
    rcat [rstr "corrupt", ropt (rstr "ed"), ws1,
      wordAlt ["file", "data", "stream"]],
    Regex.cat (rstr "unsupported") (Regex.cat ws1
      (wordAlt ["format", "codec", "file"])),
    wsSeq ["not", "a", "valid", "audio", "file"],
    rcat [rstr "no", ws1, rstr "audio", ws1, rstr "stream", ropt (rstr "s"),
      ws1, rstr "found"],
    wsSeq ["could", "not", "find", "codec"],
    wsSeq ["permission", "denied"],
    wsSeq ["access", "denied"],
    wsSeq ["operation", "not", "permitted"],
    wsSeq ["no", "such", "file", "or", "directory"],
    wsSeq ["file", "not", "found"],
    wsSeq ["invalid", "configuration"],
    rcat [rstr "missing", ws1, rstr "required", ws1,
      wordAlt ["parameter", "option", "argument"]],
    rcat [rstr "multi", dotStar, rstr "nested", dotStar, rstr "folder",
      ropt (rstr "s")],
    wsSeq ["multiple", "books", "found"],
    wsSeq ["could", "not", "determine", "structure"] ]

/-- Does the lowercased message match any pattern of a list?  This is the
body of the `for pattern in ...: if re.search(pattern, error_lower, ...)`
loops of `categorize_error` (a loop returning on first match is `List.any`). -/
def matchesAnyPattern (pats : List Regex) (msg : String) : Bool :=
  pats.any (fun p => p.searchList (pyLower msg))

/-- `categorize_error` from `retry.py`: lowercase the message, check the
permanent patterns first, then the transient patterns, default transient. -/
def categorize_error (error_message : String) : ErrorType :=
  if matchesAnyPattern PERMANENT_ERROR_PATTERNS error_message then .permanent
  else if matchesAnyPattern TRANSIENT_ERROR_PATTERNS error_message then
    .transient
  else .transient

/-- `calculate_backoff_delay` from `retry.py`.  For `retry_count ≥ 0` the
Python computation is over exact integers: `min(base * 2**rc, max)`.  For
negative `retry_count`, Python's `2 ** rc` is the float `2.0^rc`, the
product `base * 2.0^rc` is an exact power-of-two scaling of `base` (exact
for `base < 2^53`), and `int(...)` truncates toward zero, which on this
nonnegative value is exactly Nat division by `2^(-rc)`. -/
def calculate_backoff_delay (retry_count : Int) (base_delay : Nat)
    (max_delay : Nat) : Nat :=
  if 0 ≤ retry_count then
    min (base_delay * 2 ^ retry_count.toNat) max_delay
  else
    min (base_delay / 2 ^ (-retry_count).toNat) max_delay

/-- `should_retry` from `retry.py`. -/
def should_retry (retry_count : Nat) (max_retries : Nat) (is_transient : Bool)
    (retry_transient_errors : Bool) : Bool :=
  if !retry_transient_errors then false
  else if !is_transient then false
  else if max_retries ≤ retry_count then false
  else true

/-- `can_retry_now` from `retry.py`, with the wall clock `now`
(`time.time()`) passed explicitly.  Timestamps are rationals; the Python
`int(required_delay - elapsed)` truncation is a floor here because the
value is positive on that branch. -/
def can_retry_now (now : ℚ) (last_retry_time : ℚ) (retry_count : Int)
    (base_delay : Nat) : Bool × Int :=
  if last_retry_time = 0 then (true, 0)
  else
    let required_delay : Nat := calculate_backoff_delay (retry_count - 1) base_delay 3600
    let elapsed : ℚ := now - last_retry_time
    if (required_delay : ℚ) ≤ elapsed then (true, 0)
    else (false, Int.floor ((required_delay : ℚ) - elapsed))

/-! ## `src/lib/failed_books.py` — `FailedBook._read_retry_count`

The source searches `FAILED_INFO.txt` content with
`re.search(r'retry[_ ]count[:\s]+(\d+)', content, re.IGNORECASE)` and, if
that fails, `re.search(r'attempt[:\s]+(\d+)/(\d+)', content, re.IGNORECASE)`,
returning the parsed first group, and the literal `3` when neither matches
(or the file is absent).  The two patterns are embedded directly as
left-to-right scans with the regexes' greedy semantics: at each start
position, a case-insensitive literal, then a maximal nonempty run of
separator characters, then a maximal nonempty digit run (backtracking can
never shorten these runs here, because a separator is never a digit and a
digit is never `/`). -/

/-- Case-insensitive character equality (`re.IGNORECASE` on ASCII). -/
def charEqCI (a b : Char) : Bool := a.toLower = b.toLower

/-- Strip a case-insensitive literal off the front of the input. -/
def stripLitCI : List Char → List Char → Option (List Char)
  | [], cs => some cs
  | _ :: _, [] => none
  | p :: ps, c :: cs => if charEqCI p c then stripLitCI ps cs else none

/-- A `[:\s]` separator character. -/
def isSepChar (c : Char) : Bool :=
  c = ':' || RChar.wsp.matchesChar c

/-- Parse `[:\s]+(\d+)` : a nonempty separator run then a nonempty digit
run, returning the digits' value and the rest. -/
def parseSepDigits (cs : List Char) : Option (Nat × List Char) :=
  let seps := cs.takeWhile isSepChar
  if seps.isEmpty then none
  else
    let cs₁ := cs.dropWhile isSepChar
    let digs := cs₁.takeWhile Char.isDigit
    if digs.isEmpty then none
    else
      some (digs.foldl (fun n c => n * 10 + (c.toNat - '0'.toNat)) 0,
        cs₁.dropWhile Char.isDigit)

/-- Try `retry[_ ]count[:\s]+(\d+)` at the current position. -/
def tryRetryCountAt (cs : List Char) : Option Nat := do
  let cs ← stripLitCI "retry".data cs
  match cs with
  | [] => none
  | c :: cs =>
    if c = '_' || c = ' ' then
      let cs ← stripLitCI "count".data cs
      let (n, _) ← parseSepDigits cs
      some n
    else none

/-- Try `attempt[:\s]+(\d+)/(\d+)` at the current position, returning the
first group. -/
def tryAttemptAt (cs : List Char) : Option Nat := do
  let cs ← stripLitCI "attempt".data cs
  let (n, cs) ← parseSepDigits cs
  match cs with
  | [] => none
  | c :: cs =>
    if c = '/' then
      let digs := cs.takeWhile Char.isDigit
      if digs.isEmpty then none else some n
    else none

/-- Leftmost match of a position-wise parser over the input. -/
def findFirstToken (try_at : List Char → Option Nat) :
    List Char → Option Nat
  | [] => try_at []
  | cs@(_ :: rest) =>
    match try_at cs with
    | some n => some n
    | none => findFirstToken try_at rest

/-- `FailedBook._read_retry_count`: `none` is an absent `FAILED_INFO.txt`.
The fallback value is the literal constant `3` from the source. -/
def read_retry_count (content : Option String) : Nat :=
  match content with
  | none => 3
  | some s =>
    match findFirstToken tryRetryCountAt s.data with
    | some n => n
    | none =>
      match findFirstToken tryAttemptAt s.data with
      | some n => n
      | none => 3

/-! ## Item state model

`InboxItem` / `InboxState` live in `src/lib/inbox_state.py`, which is not
part of the provided sources; only their callers are.  The item record and
the state-transition setters below are therefore modelled from the spec
(§3 data model, §4.1, §4.3, §4.6), with timestamps and content hashes as
explicit values. -/

/-- Item lifecycle status (spec §3: `new, ok, needs_retry, failed, gone,
archived`). -/
inductive Status where
  | new | ok | needs_retry | failed | gone | archived
deriving Repr, DecidableEq

/-- The retry-relevant fields of an inbox item (spec §3). -/
structure Item where
  status : Status
  retry_count : Nat
  is_transient_error : Bool
  failed_reason : Option String
  first_failed_time : ℚ
  last_retry_time : ℚ
  curr_hash : Nat
deriving Repr, DecidableEq

/-- Modelled from the spec: `InboxState.set_needs_retry` (missing
`inbox_state.py`).  Spec §4.1: on a manual fix (`reset_retry_count=True`)
"reset `retryCount=0`, clear `failedReason`, set `status=needs_retry`";
without the reset flag only the status moves to `needs_retry`
(spec §4.3/§4.6: items past their backoff window move
`failed → needs_retry`). -/
def set_needs_retry (reset_retry_count : Bool) (item : Item) : Item :=
  { item with
    status := .needs_retry
    retry_count := if reset_retry_count then 0 else item.retry_count
    failed_reason := if reset_retry_count then none else item.failed_reason }

/-- Modelled from the spec: `InboxState.set_failed` (missing
`inbox_state.py`).  Records the failure reason and transience, increments
`retry_count` (`run.py` comment: "this will increment retry_count"),
stamps the retry time and the first failure time (spec §3:
`firstFailedTime`, `lastRetryTime`; `0` means unset). -/
def set_failed (now : ℚ) (reason : String) (is_transient : Bool)
    (item : Item) : Item :=
  { item with
    status := .failed
    retry_count := item.retry_count + 1
    is_transient_error := is_transient
    failed_reason := some reason
    first_failed_time :=
      if item.first_failed_time = 0 then now else item.first_failed_time
    last_retry_time := now }

/-- Modelled from the spec: `InboxState.set_ok` (missing
`inbox_state.py`).  Moves the status to `ok`; retry metadata is only
reset by the explicit operator paths (spec §6: "force a single item's
status back to `ok` with *optional* retry-count reset"). -/
def set_ok (item : Item) : Item :=
  { item with status := Status.ok }

/-- Modelled from the spec: `InboxState.set_gone` (missing
`inbox_state.py`).  Spec §4.1: vanished/completed folders transition to
`gone`. -/
def set_gone (item : Item) : Item :=
  { item with status := Status.gone }

/-- `fail_book` from `run.py`, restricted to its effect on the item record:
categorize the reason, then `inbox.set_failed(key, reason, is_transient)`.
(The rest of `fail_book` writes log files and prints.) -/
def fail_book (now : ℚ) (reason : String) (item : Item) : Item :=
  set_failed now reason (categorize_error reason = .transient) item

/-! ## `check_failed_books` from `run.py` (per-item retry sweep) -/

/-- The body of the `for book_name, item in inbox.failed_books.items()`
loop of `check_failed_books`, for one failed item.  `curr_hash` is the
recomputed `failed_book.hash()`; the stored hash is `item._curr_hash`.
Configuration (`cfg.MAX_RETRIES`, `cfg.RETRY_TRANSIENT_ERRORS`,
`cfg.RETRY_BASE_DELAY`) and the wall clock are explicit arguments. -/
def check_failed_book (now : ℚ) (max_retries : Nat)
    (retry_transient_errors : Bool) (base_delay : Nat) (curr_hash : Nat)
    (item : Item) : Item :=
  if item.curr_hash ≠ curr_hash then
    set_needs_retry true item
  else if !(should_retry item.retry_count max_retries item.is_transient_error
      retry_transient_errors) then
    item
  else if (can_retry_now now item.last_retry_time item.retry_count
      base_delay).1 then
    set_needs_retry false item
  else
    item

/-! ## `backup_ok` from `run.py`

The filesystem observations the function branches on are collected in a
record: configuration flag, emptiness, file counts and byte sizes after
the copy, and the outcomes of the deeper repair/compare passes. -/

/-- Observations `backup_ok` makes of the inbox and backup folders. -/
structure BackupObs where
  /-- `dir_is_empty_ignoring_hidden_files(book.inbox_dir)` -/
  inbox_empty : Bool
  /-- `book.num_files("inbox")` -/
  orig_files_count : Nat
  /-- `book.size("inbox", "bytes")` -/
  orig_size_b : Nat
  /-- `book.num_files("backup")` -/
  backup_files_count : Nat
  /-- `book.size("backup", "bytes")` -/
  backup_size_b : Nat
  /-- first `find_too_small_files(...)` is nonempty -/
  has_too_small_files : Bool
  /-- `find_too_small_files(...)` after the re-copy is nonempty -/
  too_small_after_recopy : Bool
  /-- pairwise compare: some file missing from the backup -/
  has_missing_files : Bool
  /-- pairwise compare: some file-size mismatch -/
  has_size_mismatch : Bool
  /-- the formatted `expected` / `found` summary strings differ -/
  expected_neq_found : Bool
deriving Repr

/-- `backup_ok` from `run.py` as a decision over its observations
(`fuzzy = 1000`), with `backup_enabled = cfg.BACKUP`.  The fall-through of
every accepting branch is the final `return True`. -/
def backup_ok (backup_enabled : Bool) (w : BackupObs) : Bool :=
  if !backup_enabled then true
  else if w.inbox_empty then true
  else
    let fuzzy : Int := 1000
    let file_count_matches := w.orig_files_count = w.backup_files_count
    let size_matches := w.orig_size_b = w.backup_size_b
    let size_fuzzy_matches :=
      ((w.orig_size_b : Int) - (w.backup_size_b : Int)).natAbs < fuzzy.toNat
    if file_count_matches ∧ size_matches then true
    else if w.orig_files_count < w.backup_files_count ∨
        w.orig_size_b < w.backup_size_b then true
    else if file_count_matches ∧ size_fuzzy_matches then true
    else if file_count_matches ∧
        (w.backup_size_b : Int) < (w.orig_size_b : Int) - fuzzy then
      if w.has_too_small_files then
        if w.too_small_after_recopy then false else true
      else true
    else
      if w.has_missing_files then false
      else if w.has_size_mismatch then false
      else if w.expected_neq_found then false
      else true

/-! ## `ok_to_overwrite` from `run.py` -/

/-- Observations `ok_to_overwrite` makes. -/
structure OverwriteObs where
  /-- `book.converted_file.is_file()` -/
  converted_file_is_file : Bool
  /-- `cfg.OVERWRITE_MODE == "skip"` -/
  overwrite_mode_skip : Bool
  /-- `book.archive_dir.exists()` -/
  archive_dir_exists : Bool
  /-- `book.size("converted", "bytes") > 0` -/
  converted_size_positive : Bool
deriving Repr

/-- `ok_to_overwrite` from `run.py`. -/
def ok_to_overwrite (w : OverwriteObs) : Bool :=
  if w.converted_file_is_file then
    if w.overwrite_mode_skip then
      if w.archive_dir_exists then false
      else if w.converted_size_positive then false
      else true
    else true
  else true

/-! ## Orchestrator: the structural guards and `process_book` of `run.py`

`book.structure` is a string tag in the source; its values are a closed
set. `multi_other` stands for any further `multi*` tag (the `case _`
branch). -/

inductive BookStructure where
  | standalone | single | flat_nested
  | multi_disc | multi_part | multi_book_series | multi_other
deriving Repr, DecidableEq

/-- `book.structure.startswith("multi")` -/
def BookStructure.isMulti : BookStructure → Bool
  | .multi_disc | .multi_part | .multi_book_series | .multi_other => true
  | _ => false

/-- The `help_msg` literal of `can_process_multi_dir`. -/
def multi_help_msg : String :=
  "Please organize the files in a single folder and rename them so they sort alphabetically\nin the correct order"

/-- Failure reason for an unconvertible `multi_book_series`
(`en.MULTI_ERR` lives in the missing `strings.py` and is a parameter). -/
def msg_multi_series (multiErr : String) : String :=
  multiErr ++ " (multiple books found) - " ++ multi_help_msg

/-- Failure reason when flattening a multi-disc book would break order
(a string literal of `run.py`). -/
def msg_flatten_order : String :=
  "This book appears to be a multi-disc book, but flattening it would affect the file order - it will need to be fixed manually by renaming the files so they sort alphabetically in the correct order"

/-- Failure reason for a multi-disc book with flattening disabled. -/
def msg_multi_disc (multiErr : String) : String :=
  multiErr ++ " (multi-disc book) - " ++ multi_help_msg

/-- Failure reason for a multi-part book. -/
def msg_multi_part (multiErr : String) : String :=
  multiErr ++ " (multi-part book) - " ++ multi_help_msg

/-- Failure reason for an undeterminable structure. -/
def msg_structure_unknown (multiErr : String) : String :=
  multiErr ++ " (structure unknown) - " ++ multi_help_msg

/-- The `help_msg` literal of `can_process_roman_numeral_book`. -/
def roman_help_msg : String :=
  "Roman numerals do not sort in alphabetical order; please rename them so they sort alphabetically in the correct order"

/-- Failure reason for order-breaking Roman numerals (`en.ROMAN_ERR` lives
in the missing `strings.py` and is a parameter). -/
def msg_roman (romanErr : String) : String :=
  romanErr ++ " - " ++ roman_help_msg

/-- Failure reason of `has_audio_files` (a string literal of `run.py`). -/
def msg_no_audio : String := "No audio files found in this folder"

/-- `cfg.ON_COMPLETE` values the orchestrator branches on. -/
inductive OnComplete where
  | archive | delete | test_do_nothing
deriving Repr, DecidableEq

/-- The configuration knobs `process_book` and its guards consult. -/
structure OrchCfg where
  /-- `cfg.CONVERT_SERIES` -/
  convert_series : Bool
  /-- `cfg.FLATTEN_MULTI_DISC_BOOKS` -/
  flatten_multi_disc : Bool
  /-- `cfg.BACKUP` -/
  backup_enabled : Bool
  /-- `cfg.ON_COMPLETE` -/
  on_complete : OnComplete
deriving Repr

/-- The filesystem/converter observations one `process_book` run makes. -/
structure BookWorld where
  /-- `item.path.exists()` -/
  path_exists : Bool
  /-- `was_recently_modified(book.inbox_dir)` -/
  recently_modified : Bool
  /-- `book.is_a(("single", "standalone"), "m4b")` -/
  is_m4b_single_or_standalone : Bool
  /-- `book.structure` -/
  book_structure : BookStructure
  /-- `book.num_files("inbox")` -/
  num_files : Nat
  /-- `book.num_roman_numerals` -/
  num_roman_numerals : Nat
  /-- `roman_numerals_affect_file_order(book.inbox_dir)` -/
  romans_affect_order : Bool
  /-- `flattening_files_in_dir_affects_order(book.inbox_dir)` -/
  flatten_affects_order : Bool
  /-- `book.is_maybe_series_parent` -/
  is_series_parent : Bool
  /-- what `backup_ok` observes -/
  backup : BackupObs
  /-- what `ok_to_overwrite` observes -/
  overwrite : OverwriteObs
  /-- `convert_book`'s failure reason (`f"{err}\n{stderr}"`), `none` on
  success -/
  convert_err : Option String
  /-- `book.converted_file.is_file()` inside
  `move_converted_book_and_extras` -/
  converted_file_exists : Bool
  /-- `book.inbox_dir.exists()` after the archive move -/
  archive_residual : Bool
  /-- `is_ok_to_delete(book.inbox_dir)` -/
  can_delete : Bool
deriving Repr

/-- `can_process_multi_dir` from `run.py`, as its effect on the item
record plus the reason it hands to `fail_book` (`none` = returned
`True`).  `multiErr` is `en.MULTI_ERR` from the missing `strings.py`. -/
def can_process_multi_dir (now : ℚ) (cfg : OrchCfg) (multiErr : String)
    (w : BookWorld) (item : Item) : Item × Option String :=
  if w.book_structure.isMulti then
    match w.book_structure with
    | .multi_book_series =>
      if cfg.convert_series then (set_ok item, none)
      else (fail_book now (msg_multi_series multiErr) item,
        some (msg_multi_series multiErr))
    | .multi_disc =>
      if cfg.flatten_multi_disc then
        if w.flatten_affects_order then
          (fail_book now msg_flatten_order item, some msg_flatten_order)
        else (set_ok item, none)
      else (fail_book now (msg_multi_disc multiErr) item,
        some (msg_multi_disc multiErr))
    | .multi_part =>
      (fail_book now (msg_multi_part multiErr) item,
        some (msg_multi_part multiErr))
    | _ =>
      (fail_book now (msg_structure_unknown multiErr) item,
        some (msg_structure_unknown multiErr))
  else (item, none)

/-- `can_process_roman_numeral_book` from `run.py`.  `romanErr` is
`en.ROMAN_ERR` from the missing `strings.py`. -/
def can_process_roman_numeral_book (now : ℚ) (romanErr : String)
    (w : BookWorld) (item : Item) : Item × Option String :=
  if 1 < w.num_roman_numerals then
    if w.romans_affect_order then
      (fail_book now (msg_roman romanErr) item, some (msg_roman romanErr))
    else (item, none)
  else (item, none)

/-- `archive_inbox_book` from `run.py`, as its effect on the item record:
`set_gone` unless `ON_COMPLETE` is the test mode, the archive move left
the folder behind, or deletion is refused with backups disabled. -/
def archive_inbox_book (cfg : OrchCfg) (w : BookWorld) (item : Item) :
    Item :=
  match cfg.on_complete with
  | .test_do_nothing => item
  | .archive => if w.archive_residual then item else set_gone item
  | .delete =>
    if w.can_delete ∨ cfg.backup_enabled then set_gone item else item

/-- `process_book` from `run.py`, as its effect on the item record
together with the reason handed to `fail_book` during the run (`none`
when `fail_book` was not invoked).  Every guard that returns early in the
source returns here with the item as that guard left it. -/
def process_book (now : ℚ) (cfg : OrchCfg) (multiErr romanErr : String)
    (w : BookWorld) (item : Item) : Item × Option String :=
  if !w.path_exists then (item, none)
  else if w.recently_modified then (item, none)
  else if w.is_m4b_single_or_standalone then (set_gone item, none)
  else if w.num_files = 0 then
    (fail_book now msg_no_audio item, some msg_no_audio)
  else
    match can_process_multi_dir now cfg multiErr w item with
    | (item₁, some m) => (item₁, some m)
    | (item₁, none) =>
      if w.is_series_parent then (item₁, none)
      else
        match can_process_roman_numeral_book now romanErr w item₁ with
        | (item₂, some m) => (item₂, some m)
        | (item₂, none) =>
          if !backup_ok cfg.backup_enabled w.backup then (item₂, none)
          else if !ok_to_overwrite w.overwrite then (item₂, none)
          else
            let item₃ := set_ok item₂
            match w.convert_err with
            | some e => (fail_book now e item₃, some e)
            | none =>
              if !w.converted_file_exists then
                (fail_book now "unknown" item₃, some "unknown")
              else (archive_inbox_book cfg w item₃, none)

/-! ## `src/api/routes/status.py` — system status derivation -/

/-- The status computation of `get_status` (status.py lines 37-42), over
the inbox aggregates `inbox.num_matched_ok` and `inbox.has_failed_books`. -/
def get_status (num_matched_ok : Nat) (has_failed_books : Bool) : String :=
  if 0 < num_matched_ok then "processing"
  else if has_failed_books then "waiting"
  else "idle"

/-! ## Theorems -/

/-- Claim C1.  The claim says every structural/pre-condition failure
message handed to `fail_book` (ambiguous multi-part layout, order-breaking
Roman numerals, order-breaking disc flattening, no audio files found) is
categorized permanent and never auto-retried.  The code disagrees: the
literal messages `run.py` passes for the no-audio-files case and for the
order-breaking disc-flattening case match no permanent (nor transient)
pattern, so `categorize_error` falls through to its transient default, the
failure is recorded transient, and — while retries remain — the retry
sweep moves the item back to `needs_retry` after the backoff window. -/
theorem c1_structural_messages_default_transient :
    categorize_error msg_no_audio = .transient ∧
    categorize_error msg_flatten_order = .transient ∧
    (fail_book 5 msg_no_audio
        ⟨.ok, 0, false, none, 0, 0, 7⟩).is_transient_error = true ∧
    should_retry 1 3 true true = true := by
  refine ⟨by decide, by decide, by decide, by decide⟩

/-- Claim C2.  For every `retryCount ≥ 0` and positive base and max,
`calculate_backoff_delay` is `min(base * 2^retryCount, max)`; with
`base = 60`: 0 ↦ 60, 1 ↦ 120, 2 ↦ 240, 3 ↦ 480, and 10 ↦ the 3600 cap. -/
theorem c2_backoff_delay_formula (retry_count : Int) (base_delay max_delay : Nat)
    (hrc : 0 ≤ retry_count) (_hb : 0 < base_delay) (_hm : 0 < max_delay) :
    calculate_backoff_delay retry_count base_delay max_delay =
      min (base_delay * 2 ^ retry_count.toNat) max_delay ∧
    calculate_backoff_delay 0 60 3600 = 60 ∧
    calculate_backoff_delay 1 60 3600 = 120 ∧
    calculate_backoff_delay 2 60 3600 = 240 ∧
    calculate_backoff_delay 3 60 3600 = 480 ∧
    calculate_backoff_delay 10 60 3600 = 3600 := by
  refine ⟨?_, by decide, by decide, by decide, by decide, by decide⟩
  unfold calculate_backoff_delay
  rw [if_pos hrc]

/-- Witness for C2 at `retryCount = 2`, `base = 60`, `max = 3600`. -/
theorem c2_backoff_delay_formula_witness :
    calculate_backoff_delay 2 60 3600 = min (60 * 2 ^ (2 : Int).toNat) 3600 :=
  (c2_backoff_delay_formula 2 60 3600 (by decide) (by decide) (by decide)).1

/-- Claim C3.  `categorize_error` is total and deterministic (every message
yields `transient` or `permanent`), permanent patterns take precedence
whenever a permanent pattern matches (in particular when both a permanent
and a transient pattern match), and a message matching no pattern at all
defaults to `transient`. -/
theorem c3_categorize_total_permanent_precedence (msg : String) :
    (categorize_error msg = .transient ∨ categorize_error msg = .permanent) ∧
    (matchesAnyPattern PERMANENT_ERROR_PATTERNS msg = true →
      categorize_error msg = .permanent) ∧
    (matchesAnyPattern PERMANENT_ERROR_PATTERNS msg = true →
      matchesAnyPattern TRANSIENT_ERROR_PATTERNS msg = true →
      categorize_error msg = .permanent) ∧
    (matchesAnyPattern PERMANENT_ERROR_PATTERNS msg = false →
      matchesAnyPattern TRANSIENT_ERROR_PATTERNS msg = false →
      categorize_error msg = .transient) := by
  unfold categorize_error
  rcases hp : matchesAnyPattern PERMANENT_ERROR_PATTERNS msg <;>
    rcases ht : matchesAnyPattern TRANSIENT_ERROR_PATTERNS msg <;>
      simp

/-- Witness for C3 on a message matching both a permanent pattern
(`permission denied`) and a transient pattern (`connection timed out`):
the permanent classification wins. -/
theorem c3_categorize_total_permanent_precedence_witness :
    matchesAnyPattern PERMANENT_ERROR_PATTERNS
        "Permission denied after connection timed out" = true ∧
    matchesAnyPattern TRANSIENT_ERROR_PATTERNS
        "Permission denied after connection timed out" = true ∧
    categorize_error "Permission denied after connection timed out" =
      .permanent :=
  ⟨by decide, by decide,
    (c3_categorize_total_permanent_precedence
      "Permission denied after connection timed out").2.2.1
      (by decide) (by decide)⟩

/-- Claim C4.  `should_retry` is false when retrying is disabled, false
when the error is not transient, false whenever
`retryCount ≥ maxRetries` (regardless of the other flags), and true
otherwise. -/
theorem c4_should_retry_cases (retry_count max_retries : Nat)
    (is_transient retry_enabled : Bool) :
    (retry_enabled = false →
      should_retry retry_count max_retries is_transient retry_enabled = false) ∧
    (is_transient = false →
      should_retry retry_count max_retries is_transient retry_enabled = false) ∧
    (max_retries ≤ retry_count →
      should_retry retry_count max_retries is_transient retry_enabled = false) ∧
    (retry_enabled = true → is_transient = true → retry_count < max_retries →
      should_retry retry_count max_retries is_transient retry_enabled = true) := by
  unfold should_retry
  rcases retry_enabled <;> rcases is_transient <;>
    rcases Nat.lt_or_ge retry_count max_retries with h | h <;>
      simp_all

/-- Witness for C4: with 2 prior retries, a max of 3, a transient error and
retrying enabled, the book is retried; and at the max it is not. -/
theorem c4_should_retry_cases_witness :
    should_retry 2 3 true true = true ∧ should_retry 3 3 true true = false :=
  ⟨(c4_should_retry_cases 2 3 true true).2.2.2 rfl rfl (by decide),
    (c4_should_retry_cases 3 3 true true).2.2.1 (by decide)⟩

/-- Claim C5.  `can_retry_now` returns `(true, 0)` when
`lastRetryTime = 0`; otherwise it compares the elapsed wall-clock time
with `calculate_backoff_delay(retryCount - 1, base)`, returning `(true, 0)`
once the delay has elapsed and `(false, secondsRemaining)` before that.
`"connection timed out"` is categorized transient, and with
`retryCount = 1` and `base = 60` the required delay is 60 seconds:
immediately after the failure the answer is `(false, 60)`, and 60 seconds
later it is `(true, 0)`. -/
theorem c5_can_retry_now_backoff_window (now last : ℚ) (retry_count : Int)
    (base_delay : Nat) :
    categorize_error "connection timed out" = .transient ∧
    (last = 0 → can_retry_now now last retry_count base_delay = (true, 0)) ∧
    (last ≠ 0 →
      ((calculate_backoff_delay (retry_count - 1) base_delay 3600 : ℚ) ≤
          now - last →
        can_retry_now now last retry_count base_delay = (true, 0)) ∧
      (now - last <
          (calculate_backoff_delay (retry_count - 1) base_delay 3600 : ℚ) →
        can_retry_now now last retry_count base_delay =
          (false, Int.floor
            ((calculate_backoff_delay (retry_count - 1) base_delay 3600 : ℚ) -
              (now - last))))) ∧
    calculate_backoff_delay (1 - 1) 60 3600 = 60 ∧
    (last ≠ 0 → can_retry_now last last 1 60 = (false, 60)) ∧
    (last ≠ 0 → can_retry_now (last + 60) last 1 60 = (true, 0)) := by
  refine ⟨by decide, ?_, ?_, by decide, ?_, ?_⟩
  · intro h; simp [can_retry_now, h]
  · intro h
    constructor
    · intro hle
      rw [can_retry_now, if_neg h, if_pos hle]
    · intro hlt
      rw [can_retry_now, if_neg h, if_neg (not_le.mpr hlt)]
  · intro h
    rw [can_retry_now, if_neg h]
    norm_num [calculate_backoff_delay]
  · intro h
    rw [can_retry_now, if_neg h]
    norm_num [calculate_backoff_delay]

/-- Witness for C5 at `last = 1000`, `base = 60`, `retryCount = 1`:
not yet eligible at `now = 1000` with 60 seconds remaining, eligible at
`now = 1060`. -/
theorem c5_can_retry_now_backoff_window_witness :
    can_retry_now 1000 1000 1 60 = (false, 60) ∧
    can_retry_now 1060 1000 1 60 = (true, 0) := by
  constructor
  · exact (c5_can_retry_now_backoff_window 1000 1000 1 60).2.2.2.2.1
      (by norm_num)
  · have h := (c5_can_retry_now_backoff_window 1060 1000 1 60).2.2.2.2.2
      (by norm_num)
    norm_num at h
    exact h

/-- Claim C6.  For a failed item, the per-iteration retry sweep
(`check_failed_books`) resets `retryCount` to 0 and clears the failure
reason exactly when the recomputed content hash differs from the stored
one, and then sets the status to `needs_retry` (never `ok`); when the
hash is unchanged the sweep never changes `retryCount`. -/
theorem c6_retry_sweep_hash_reset (now : ℚ) (max_retries : Nat)
    (retry_transient_errors : Bool) (base_delay : Nat) (curr_hash : Nat)
    (item : Item) :
    (item.curr_hash ≠ curr_hash →
      (check_failed_book now max_retries retry_transient_errors base_delay
          curr_hash item).retry_count = 0 ∧
      (check_failed_book now max_retries retry_transient_errors base_delay
          curr_hash item).failed_reason = none ∧
      (check_failed_book now max_retries retry_transient_errors base_delay
          curr_hash item).status = .needs_retry ∧
      (check_failed_book now max_retries retry_transient_errors base_delay
          curr_hash item).status ≠ .ok) ∧
    (item.curr_hash = curr_hash →
      (check_failed_book now max_retries retry_transient_errors base_delay
          curr_hash item).retry_count = item.retry_count) := by
  unfold check_failed_book
  constructor
  · intro h
    rw [if_pos h]
    simp [set_needs_retry]
  · intro h
    rw [if_neg (fun hn => hn h)]
    split_ifs <;> simp [set_needs_retry]

/-- Witness for C6: a failed item whose stored hash `1` differs from the
recomputed hash `2` is reset to `retry_count = 0`, `needs_retry`, no
reason; with the same hash `1` its `retry_count` stays at 2. -/
theorem c6_retry_sweep_hash_reset_witness :
    (check_failed_book 0 3 true 60 2
        ⟨.failed, 2, true, some "x", 0, 50, 1⟩).retry_count = 0 ∧
    (check_failed_book 0 3 true 60 2
        ⟨.failed, 2, true, some "x", 0, 50, 1⟩).status = .needs_retry ∧
    (check_failed_book 0 3 true 60 2
        ⟨.failed, 2, true, some "x", 0, 50, 1⟩).failed_reason = none ∧
    (check_failed_book 0 3 true 60 1
        ⟨.failed, 2, true, some "x", 0, 50, 1⟩).retry_count = 2 := by
  have h₁ := (c6_retry_sweep_hash_reset 0 3 true 60 2
    ⟨.failed, 2, true, some "x", 0, 50, 1⟩).1 (by decide)
  have h₂ := (c6_retry_sweep_hash_reset 0 3 true 60 1
    ⟨.failed, 2, true, some "x", 0, 50, 1⟩).2 rfl
  exact ⟨h₁.1, h₁.2.2.1, h₁.2.1, h₂⟩

/-- If `can_process_multi_dir` did not hand a reason to `fail_book`, the
item it returns keeps the input's retry metadata (it is the input item,
or the input item with only its status set to `ok`). -/
theorem can_process_multi_dir_none_preserves (now : ℚ) (cfg : OrchCfg)
    (multiErr : String) (w : BookWorld) (item : Item)
    (h : (can_process_multi_dir now cfg multiErr w item).2 = none) :
    (can_process_multi_dir now cfg multiErr w item).1.retry_count =
        item.retry_count ∧
    (can_process_multi_dir now cfg multiErr w item).1.is_transient_error =
        item.is_transient_error ∧
    (can_process_multi_dir now cfg multiErr w item).1.failed_reason =
        item.failed_reason ∧
    (can_process_multi_dir now cfg multiErr w item).1.last_retry_time =
        item.last_retry_time ∧
    (can_process_multi_dir now cfg multiErr w item).1.first_failed_time =
        item.first_failed_time := by
  unfold can_process_multi_dir at h ⊢
  cases hs : w.book_structure <;>
    simp only [hs, BookStructure.isMulti] at h ⊢ <;>
      split_ifs at h ⊢ <;> simp_all [set_ok]

/-- If `can_process_roman_numeral_book` did not hand a reason to
`fail_book`, it returns the input item unchanged. -/
theorem can_process_roman_none_eq (now : ℚ) (romanErr : String)
    (w : BookWorld) (item : Item)
    (h : (can_process_roman_numeral_book now romanErr w item).2 = none) :
    (can_process_roman_numeral_book now romanErr w item).1 = item := by
  unfold can_process_roman_numeral_book at h ⊢
  split_ifs at h ⊢ <;> simp_all

/-- Claim C7.  When backup verification fails, `process_book` returns for
that iteration without invoking `fail_book` and without touching the
item's retry metadata (`retryCount`, `isTransientError`, `failedReason`,
the retry timestamps); and `backup_ok` succeeds trivially when backups
are disabled or the source folder is empty, and succeeds whenever the
backup's file count and byte size exactly match the source's. -/
theorem c7_backup_failure_skips_without_retry_mutation (now : ℚ)
    (cfg : OrchCfg) (multiErr romanErr : String) (w : BookWorld)
    (item : Item) :
    (w.path_exists = true → w.recently_modified = false →
      w.is_m4b_single_or_standalone = false → w.num_files ≠ 0 →
      (can_process_multi_dir now cfg multiErr w item).2 = none →
      w.is_series_parent = false →
      (can_process_roman_numeral_book now romanErr w
          (can_process_multi_dir now cfg multiErr w item).1).2 = none →
      backup_ok cfg.backup_enabled w.backup = false →
      (process_book now cfg multiErr romanErr w item).2 = none ∧
      (process_book now cfg multiErr romanErr w item).1.retry_count =
          item.retry_count ∧
      (process_book now cfg multiErr romanErr w item).1.is_transient_error =
          item.is_transient_error ∧
      (process_book now cfg multiErr romanErr w item).1.failed_reason =
          item.failed_reason ∧
      (process_book now cfg multiErr romanErr w item).1.last_retry_time =
          item.last_retry_time ∧
      (process_book now cfg multiErr romanErr w item).1.first_failed_time =
          item.first_failed_time) ∧
    (cfg.backup_enabled = false →
      backup_ok cfg.backup_enabled w.backup = true) ∧
    (w.backup.inbox_empty = true →
      backup_ok cfg.backup_enabled w.backup = true) ∧
    (w.backup.orig_files_count = w.backup.backup_files_count →
      w.backup.orig_size_b = w.backup.backup_size_b →
      backup_ok cfg.backup_enabled w.backup = true) := by
  refine ⟨?_, ?_, ?_, ?_⟩
  · intro hp hrm hm4b hnf hmulti hsp hroman hb
    obtain ⟨prc, pte, pfr, plrt, pfft⟩ :=
      can_process_multi_dir_none_preserves now cfg multiErr w item hmulti
    have hre := can_process_roman_none_eq now romanErr w
      (can_process_multi_dir now cfg multiErr w item).1 hroman
    unfold process_book
    rcases hpm : can_process_multi_dir now cfg multiErr w item with ⟨i₁, o₁⟩
    rw [hpm] at hmulti hre hroman prc pte pfr plrt pfft
    subst hmulti
    rcases hrm2 : can_process_roman_numeral_book now romanErr w i₁
      with ⟨i₂, o₂⟩
    rw [hrm2] at hre hroman
    subst hroman
    simp only at hre
    simp only [Prod.fst] at prc pte pfr plrt pfft
    simp [hp, hrm, hm4b, hnf, hpm, hsp, hrm2, hb, hre, prc, pte, pfr, plrt,
      pfft]
  · intro h
    simp [backup_ok, h]
  · intro h
    unfold backup_ok
    rcases cfg.backup_enabled <;> simp [h]
  · intro h1 h2
    unfold backup_ok
    rcases cfg.backup_enabled <;> simp [h1, h2]

/-- A configuration for the C7 witness (backups on, archive mode). -/
def sampleCfg : OrchCfg := ⟨false, false, true, .archive⟩

/-- Backup observations for the C7 witness: two source files of 5000
bytes total, a one-file 1000-byte backup, a file missing from the
backup. -/
def sampleBackup : BackupObs :=
  ⟨false, 2, 5000, 1, 1000, false, false, true, false, true⟩

/-- A world for the C7 witness: an ordinary single-folder book whose
backup verification fails. -/
def sampleWorld : BookWorld :=
  ⟨true, false, false, .single, 3, 0, false, false, false, sampleBackup,
    ⟨false, false, false, false⟩, none, true, false, true⟩

/-- An item for the C7 witness carrying nonzero retry metadata. -/
def sampleItem : Item := ⟨.ok, 1, true, some "r", 0, 9, 4⟩

/-- Witness for C7: on `sampleWorld` the backup check fails, and
`process_book` leaves the retry metadata of `sampleItem` untouched and
calls no `fail_book`. -/
theorem c7_backup_failure_skips_without_retry_mutation_witness :
    backup_ok true sampleBackup = false ∧
    (process_book 0 sampleCfg "M" "R" sampleWorld sampleItem).2 = none ∧
    (process_book 0 sampleCfg "M" "R" sampleWorld sampleItem).1.retry_count
      = 1 ∧
    (process_book 0 sampleCfg "M" "R" sampleWorld
      sampleItem).1.failed_reason = some "r" := by
  have h := (c7_backup_failure_skips_without_retry_mutation 0 sampleCfg
    "M" "R" sampleWorld sampleItem).1 rfl rfl rfl (by decide) (by decide)
    rfl (by decide) (by decide)
  exact ⟨by decide, h.1, h.2.1, h.2.2.2.1⟩

/-- Claim C8 counterexample.  With no token and no file, the derived
retry count is the constant `3`, not the configured maximum: configuring
`MAX_RETRIES = 5` (a value the config's own documentation uses as its
example) makes the claimed equality false. -/
theorem c8_default_not_configured_max_counterexample :
    read_retry_count none = 3 ∧ read_retry_count none ≠ 5 := by decide

/-- Claim C8 as amended.  When `FAILED_INFO.txt` is absent or contains no
`retry_count: N` and no `attempt: N/M` token, the derived retry count
defaults to the constant 3 (the *default* configured maximum, but not the
configured maximum when that is set differently); when a token is
present, it equals the parsed `N`, with the `retry_count` pattern taking
precedence. -/
theorem c8_retry_count_token_amended (s : String) :
    read_retry_count none = 3 ∧
    (findFirstToken tryRetryCountAt s.data = none →
      findFirstToken tryAttemptAt s.data = none →
      read_retry_count (some s) = 3) ∧
    (∀ n, findFirstToken tryRetryCountAt s.data = some n →
      read_retry_count (some s) = n) ∧
    (∀ n, findFirstToken tryRetryCountAt s.data = none →
      findFirstToken tryAttemptAt s.data = some n →
      read_retry_count (some s) = n) ∧
    read_retry_count (some "retry_count: 2") = 2 ∧
    read_retry_count (some "Attempt: 1/3") = 1 ∧
    read_retry_count (some "Last error: something broke") = 3 := by
  refine ⟨rfl, ?_, ?_, ?_, by decide, by decide, by decide⟩
  · intro h1 h2
    simp [read_retry_count, h1, h2]
  · intro n h1
    simp [read_retry_count, h1]
  · intro n h1 h2
    simp [read_retry_count, h1, h2]

/-- Witness for C8's amended theorem on `"retry_count: 7"`. -/
theorem c8_retry_count_token_amended_witness :
    findFirstToken tryRetryCountAt ("retry_count: 7").data = some 7 ∧
    read_retry_count (some "retry_count: 7") = 7 :=
  ⟨by decide,
    (c8_retry_count_token_amended "retry_count: 7").2.2.1 7 (by decide)⟩

/-- Claim C9.  The status endpoint reports `processing` when some matched
item is ok-and-unprocessed, otherwise `waiting` when some item has an
outstanding failure, otherwise `idle`; exactly one of the three for any
aggregate state. -/
theorem c9_status_precedence (num_matched_ok : Nat)
    (has_failed_books : Bool) :
    (0 < num_matched_ok →
      get_status num_matched_ok has_failed_books = "processing") ∧
    (num_matched_ok = 0 → has_failed_books = true →
      get_status num_matched_ok has_failed_books = "waiting") ∧
    (num_matched_ok = 0 → has_failed_books = false →
      get_status num_matched_ok has_failed_books = "idle") ∧
    ((get_status num_matched_ok has_failed_books = "processing" ∧
        get_status num_matched_ok has_failed_books ≠ "waiting" ∧
        get_status num_matched_ok has_failed_books ≠ "idle") ∨
      (get_status num_matched_ok has_failed_books ≠ "processing" ∧
        get_status num_matched_ok has_failed_books = "waiting" ∧
        get_status num_matched_ok has_failed_books ≠ "idle") ∨
      (get_status num_matched_ok has_failed_books ≠ "processing" ∧
        get_status num_matched_ok has_failed_books ≠ "waiting" ∧
        get_status num_matched_ok has_failed_books = "idle")) := by
  unfold get_status
  rcases num_matched_ok with _ | n <;> rcases has_failed_books <;> simp

/-- Witness for C9: one matched ok item while failures exist still
reports `processing`; none with failures reports `waiting`. -/
theorem c9_status_precedence_witness :
    get_status 1 true = "processing" ∧ get_status 0 true = "waiting" :=
  ⟨(c9_status_precedence 1 true).1 (by decide),
    (c9_status_precedence 0 true).2.1 rfl rfl⟩

/-- Claim C10 counterexample.  The claimed chain
`calculate_backoff_delay(-1, base) = int(base * 2^(-1)) = base/2` ignores
the 3600-second cap: at `base = 10000` the code yields the cap 3600, not
`base/2 = 5000`. -/
theorem c10_half_base_cap_counterexample :
    calculate_backoff_delay (-1) 10000 3600 = 3600 ∧
    calculate_backoff_delay (-1) 10000 3600 ≠ 10000 / 2 := by decide

/-- Claim C10 as amended.  For nonzero `lastRetryTime` and
`retryCount = 0`, `can_retry_now` computes the required delay as
`calculate_backoff_delay(-1, base) = min(base/2, 3600)` — which equals
`base/2` whenever `base ≤ 7201`, in particular at the default 60 where
the window is 30 seconds: half the base delay, not the full base delay. -/
theorem c10_half_base_delay_amended (now last : ℚ) (base : Nat) :
    calculate_backoff_delay (-1) base 3600 = min (base / 2) 3600 ∧
    (base ≤ 7201 → calculate_backoff_delay (-1) base 3600 = base / 2) ∧
    (last ≠ 0 → can_retry_now now last 0 base =
      (if ((min (base / 2) 3600 : Nat) : ℚ) ≤ now - last then
        ((true : Bool), (0 : Int))
      else (false, Int.floor (((min (base / 2) 3600 : Nat) : ℚ) -
        (now - last))))) ∧
    calculate_backoff_delay (-1) 60 3600 = 30 ∧ 30 < 60 := by
  have h1 : calculate_backoff_delay (-1) base 3600 = min (base / 2) 3600 := by
    unfold calculate_backoff_delay
    rw [if_neg (by decide)]
    norm_num
  refine ⟨h1, ?_, ?_, by decide, by decide⟩
  · intro h
    rw [h1]
    omega
  · intro h
    unfold can_retry_now
    rw [if_neg h]
    have h2 : (0 : Int) - 1 = -1 := by decide
    rw [h2, h1]

/-- Witness for C10's amended theorem: `base = 60` gives a 30-second
window, and with `lastRetryTime = 100` the item is eligible at
`now = 130`. -/
theorem c10_half_base_delay_amended_witness :
    calculate_backoff_delay (-1) 60 3600 = 60 / 2 ∧
    can_retry_now 130 100 0 60 = (true, 0) := by
  constructor
  · exact (c10_half_base_delay_amended 0 1 60).2.1 (by decide)
  · have h := (c10_half_base_delay_amended 130 100 60).2.2.1 (by norm_num)
    rw [h]
    norm_num

end AutoM4b
